import Mathlib

/-!
Shallow embedding of the email-app orchestrator (`compose/server.js`), its
drafting service (`author-agent/server.js`) and the shared utilities
(`shared/index.js`).  JavaScript strings are modelled as `String`; a value
that may be `undefined`/`null` is an `Option`; JS truthiness on strings
(where `""` is falsy) is made explicit via `truthyStr`.  Collaborator calls
(author-agent, HITL review agent, send-agent) are modelled as oracle inputs
of type `Except String _` (`.error` = thrown transport failure), and the
calls the engine makes are recorded in a `Trace` so that theorems can speak
about which collaborators were invoked and with which arguments.
-/

namespace EmailApp

/-- JS `String.prototype.trim` (whitespace stripped from both ends), defined
by structural recursion over the character list so that concrete instances
evaluate inside the kernel. -/
def jsTrim (s : String) : String :=
  ⟨(((s.data.dropWhile Char.isWhitespace).reverse).dropWhile Char.isWhitespace).reverse⟩

/-- JS `String.prototype.toLowerCase` (character-wise lowering). -/
def toLowerCase (s : String) : String := ⟨s.data.map Char.toLower⟩

/-- JS truthiness for an optional string: `undefined`, `null` and `""` are falsy. -/
def truthyStr : Option String → Bool
  | some s => s ≠ ""
  | none => false

/-- JS `a || b || ... || null` over string-valued operands: first truthy value, else `none`. -/
def firstTruthy : List (Option String) → Option String
  | [] => none
  | a :: rest => if truthyStr a then a else firstTruthy rest

/-- JS `cond ? x : null` where `cond` is the truthiness of `x` itself. -/
def truthyOpt (o : Option String) : Option String :=
  if truthyStr o then o else none

/-- Per-instance `config.json` fields read by `mergeConfig` (`shared.loadInstanceConfig`). -/
structure Cfg where
  subject : Option String := none
  EMAIL_SUBJECT : Option String := none
  toRcpt : Option (List String) := none
  cc : Option (List String) := none
  bcc : Option (List String) := none
  sender_email : Option String := none
  SENDER_EMAIL : Option String := none
  sender_name : Option String := none
  SENDER_NAME : Option String := none
deriving Repr, DecidableEq

/-- The request-payload fields consulted by `mergeConfig`.  `none` models an
absent (`undefined`) field; a present-but-empty string is `some ""` (falsy in JS). -/
structure Payload where
  subject : Option String := none
  toRcpt : Option (List String) := none
  cc : Option (List String) := none
  bcc : Option (List String) := none
  sender_email : Option String := none
  sender_name : Option String := none
deriving Repr, DecidableEq

/-- Result shape of `mergeConfig`. -/
structure Merged where
  subject : Option String
  toRcpt : List String
  cc : List String
  bcc : List String
  sender_email : Option String
  sender_name : Option String
deriving Repr, DecidableEq

/-- `compose/server.js` `mergeConfig`: field-by-field JS `||` chains
(`payload.subject || cfg.subject || cfg.EMAIL_SUBJECT || null`, arrays default `[]`).
Arrays are truthy in JS even when empty, so an array field uses `Option.getD`. -/
def mergeConfig (cfg : Cfg) (p : Payload) : Merged :=
  { subject := firstTruthy [p.subject, cfg.subject, cfg.EMAIL_SUBJECT]
    toRcpt := (p.toRcpt.or cfg.toRcpt).getD []
    cc := (p.cc.or cfg.cc).getD []
    bcc := (p.bcc.or cfg.bcc).getD []
    sender_email := firstTruthy [p.sender_email, cfg.sender_email, cfg.SENDER_EMAIL]
    sender_name := firstTruthy [p.sender_name, cfg.sender_name, cfg.SENDER_NAME] }

/-- Normalized non-empty recipients, result of `requireRecipients`. -/
structure Recipients where
  toRcpt : List String
  cc : List String
  bcc : List String
deriving Repr, DecidableEq

/-- `compose/server.js` `requireRecipients`: drop falsy entries
(`filter(Boolean)`), return `null` when every list ends up empty. -/
def requireRecipients (toL cc bcc : List String) : Option Recipients :=
  let toArr := toL.filter (fun s => s ≠ "")
  let ccArr := cc.filter (fun s => s ≠ "")
  let bccArr := bcc.filter (fun s => s ≠ "")
  if toArr.isEmpty ∧ ccArr.isEmpty ∧ bccArr.isEmpty then none
  else some ⟨toArr, ccArr, bccArr⟩

/-- `shared.validateInstanceId`: a string whose trim is non-empty. -/
def validateInstanceId (s : String) : Bool := jsTrim s ≠ ""

/-- The per-instance `meta.json` record fields touched by the engine. -/
structure Meta where
  status : Option String := none
  gen_count : Nat := 0
  started_at : Option String := none
  owner : Option String := none
  finished_at : Option String := none
deriving Repr, DecidableEq

/-- Engine-visible durable state for one instance: the `meta.json` record and
the content of the `artifacts/email.html` draft artifact (`""` when absent,
as `readLatestEmailHtml` returns `''` for a missing file). -/
structure EngineState where
  meta : Meta := {}
  draftHtml : String := ""
deriving Repr, DecidableEq

/-- `compose/server.js` `markInstanceActive`: set status `active`, stamp
`started_at` if falsy, set `owner` if the username is truthy and owner unset. -/
def markInstanceActive (m : Meta) (username now : String) : Meta :=
  let m1 : Meta := { m with status := some "active" }
  let m2 : Meta :=
    if truthyStr m1.started_at then m1 else { m1 with started_at := some now }
  if username ≠ "" ∧ ¬ truthyStr m2.owner then { m2 with owner := some username } else m2

/-- `compose/server.js` `abortInstance` meta update: status `abort`,
`finished_at` stamped with the current time (unconditionally overwritten). -/
def abortMeta (m : Meta) (now : String) : Meta :=
  { m with status := some "abort", finished_at := some now }

/-- `handleHitlCallback`'s local `finishAs`: set a terminal status and stamp
`finished_at` with the current time (unconditionally overwritten). -/
def finishAsMeta (m : Meta) (status now : String) : Meta :=
  { m with status := some status, finished_at := some now }

/-- Body of a HITL (review collaborator) response, fields the engine reads. -/
structure HitlBody where
  error : Option String := none
  status : Option String := none
  information : Option String := none
  info : Option String := none
deriving Repr, DecidableEq

/-- A HITL response: transport status code plus optional parsed JSON body
(`none` when the body failed to parse, as `callHitlAgent` sets `body = null`). -/
structure HitlResp where
  status : Nat
  body : Option HitlBody := none
deriving Repr, DecidableEq

/-- `submitHitlAndHandle`: `hitlResp.body && hitlResp.body.error ? hitlResp.body.error : null`. -/
def hitlErrorOf (r : HitlResp) : Option String :=
  match r.body with
  | some b => truthyOpt b.error
  | none => none

/-- `submitHitlAndHandle`: `hitlResp.body && hitlResp.body.status ? hitlResp.body.status : null`. -/
def hitlStatusOf (r : HitlResp) : Option String :=
  match r.body with
  | some b => truthyOpt b.status
  | none => none

/-- `submitHitlAndHandle`: `body && (body.information || body.info) ? (body.information || body.info) : null`. -/
def hitlInfoOf (r : HitlResp) : Option String :=
  match r.body with
  | some b => firstTruthy [b.information, b.info]
  | none => none

/-- `submitHitlAndHandle`'s acceptance predicate:
`(status === 200 || status === 202) && !hitlError && hitlStatus !== 'no-hitl' && hitlStatus !== 'skip'`. -/
def hitlAccepted (r : HitlResp) : Bool :=
  (r.status == 200 || r.status == 202) && (hitlErrorOf r).isNone
    && (hitlStatusOf r != some "no-hitl") && (hitlStatusOf r != some "skip")

/-- One request the engine sends to the author-agent (`callAuthorAgent` payload). -/
structure DraftCall where
  instructions : String
  base_html : String
  subject : Option String
deriving Repr, DecidableEq

/-- One submission the engine makes to the HITL review agent (`callHitlAgent`):
the drafted HTML and the engine-level zero-based loop index (the wire payload
carries `loop = loopIndex + 1`). -/
structure ReviewCall where
  html : String
  loopIndex : Nat
deriving Repr, DecidableEq

/-- One request the engine sends to the send-agent (`callEmailAgent` payload). -/
structure DeliveryCall where
  html : String
  subject : Option String
  sender_email : Option String
  sender_name : Option String
  toRcpt : List String
  cc : List String
  bcc : List String
deriving Repr, DecidableEq

/-- Record of the collaborator calls one trigger performed (in order), plus the
abort / terminal-transition notes it logged.  Best-effort event emission is not
part of instance state and is not recorded. -/
structure Trace where
  draftCalls : List DraftCall := []
  reviewCalls : List ReviewCall := []
  deliveryCalls : List DeliveryCall := []
  notes : List String := []
deriving Repr, DecidableEq

/-- Oracle responses of the three external collaborators for one trigger:
`.error` models a thrown transport/non-success failure, `.ok` a parsed
success response (for the author-agent, the generated HTML). -/
structure Env where
  author : Except String String := .ok ""
  hitl : Except String HitlResp := .ok { status := 200 }
  email : Except String Unit := .ok ()
deriving Repr

/-- `abortInstance` as a state+trace step: terminal `abort` meta update, the
optional note recorded (the code appends it to the local log). -/
def abortInstanceM (st : EngineState) (tr : Trace) (note : Option String) (now : String) :
    EngineState × Trace :=
  ({ st with meta := abortMeta st.meta now },
   { tr with notes := tr.notes ++ note.toList })

/-- `finishAs` as a state+trace step: terminal meta update plus the log detail. -/
def finishAsM (st : EngineState) (tr : Trace) (status : String) (note : Option String)
    (now : String) : EngineState × Trace :=
  ({ st with meta := finishAsMeta st.meta status now },
   { tr with notes := tr.notes ++ note.toList })

/-- Normalized result `submitHitlAndHandle` returns to its caller. -/
structure SubmitResult where
  accepted : Bool
  status : Nat
  error : Option String
  hitlStatus : Option String
  hitlInfo : Option String
deriving Repr, DecidableEq

/-- Rejection note built by `submitHitlAndHandle` for `abortInstance`:
`HITL submission failed: ${status}` plus the optional error/status/info parts. -/
def failNote (statusCode : Nat) (err st info : Option String) : String :=
  "HITL submission failed: " ++ toString statusCode
    ++ (match err with | some e => " error=" ++ e | none => "")
    ++ (match st with | some s => " status=" ++ s | none => "")
    ++ (match info with | some i => " info=" ++ i | none => "")

/-- `compose/server.js` `submitHitlAndHandle`: submit the draft to the HITL
agent (recording the review call), normalize the response, and on a
well-formed response either transition the instance to `wait` (accepted) or,
when `abortOnFail`, abort it with a rejection note.  A transport failure of
the HITL call itself propagates as `.error` with no state change. -/
def submitHitlAndHandle (st : EngineState) (tr : Trace) (html : String) (loopIndex : Nat)
    (hitl : Except String HitlResp) (abortOnFail : Bool) (now : String) :
    EngineState × Trace × Except String SubmitResult :=
  let tr := { tr with reviewCalls := tr.reviewCalls ++ [⟨html, loopIndex⟩] }
  match hitl with
  | .error e => (st, tr, .error e)
  | .ok resp =>
    let err := hitlErrorOf resp
    let hst := hitlStatusOf resp
    let info := hitlInfoOf resp
    let acc := hitlAccepted resp
    let res : SubmitResult := ⟨acc, resp.status, err, hst, info⟩
    if acc then
      ({ st with meta := { st.meta with status := some "wait" } }, tr, .ok res)
    else if abortOnFail then
      let (st2, tr2) := abortInstanceM st tr (some (failNote resp.status err hst info)) now
      (st2, tr2, .ok res)
    else
      (st, tr, .ok res)

/-- Inbound `POST /compose/send` request fields the engine consults
(`regen_base_html` is `base_html`; `""` models an absent/falsy string field). -/
structure ComposeInput where
  instance_id : String := "i"
  username : String := ""
  instructions : String := ""
  base_html : String := ""
  payload : Payload := {}
  isAsync : Bool := false
deriving Repr, DecidableEq

/-- Synchronous or detached response of `POST /compose/send`. -/
inductive ComposeResp where
  /-- 400 with a machine-readable reason code, sent before any state change. -/
  | validationError (code : String)
  /-- 200 with `{instance_id, trace_id, draft_html, send_result: null}`. -/
  | okFlow (instance_id trace_id draft_html : String)
  /-- 200 with `{error: 'hitl_submit_failed', status, detail}`. -/
  | okHitlRejected (status : Nat) (detail : Option String)
  /-- 202 `{status: 'accepted', instance_id, trace_id}` (detached-mode ack). -/
  | accepted (instance_id trace_id : String)
  /-- 502 `{error: 'compose_failed', detail}` from the synchronous catch. -/
  | composeFailed (detail : String)
deriving Repr, DecidableEq

/-- Result of one `POST /compose/send` trigger: final state, collaborator
trace, and the HTTP-level response. -/
structure ComposeResult where
  state : EngineState
  trace : Trace
  resp : ComposeResp
deriving Repr, DecidableEq

/-- Outcome of `runFlow` inside `handleComposeSend`: a normal return (success
body or the hitl-rejected error body) or a thrown error. -/
inductive FlowRes where
  | ok (draft_html : String)
  | hitlRejected (status : Nat) (detail : Option String)
  | threw (msg : String)
deriving Repr, DecidableEq

/-- `handleComposeSend`'s `runFlow`: increment `gen_count`, call the
author-agent (which on success writes the draft artifact), then submit to the
HITL agent with `loopIndex = gen_count - 1` and `abortOnFail = true`.  An
author-agent failure propagates as a thrown error without touching status. -/
def runFlow (inp : ComposeInput) (merged : Merged) (st : EngineState) (tr : Trace)
    (env : Env) (now : String) : EngineState × Trace × FlowRes :=
  let m2 : Meta := { st.meta with gen_count := st.meta.gen_count + 1 }
  let st := { st with meta := m2 }
  let tr := { tr with draftCalls := tr.draftCalls ++ [⟨inp.instructions, inp.base_html, merged.subject⟩] }
  match env.author with
  | .error e => (st, tr, .threw e)
  | .ok html =>
    let st := { st with draftHtml := html }
    let loopIdx := if m2.gen_count ≠ 0 then m2.gen_count - 1 else 0
    match submitHitlAndHandle st tr html loopIdx env.hitl true now with
    | (st2, tr2, .error e) => (st2, tr2, .threw e)
    | (st2, tr2, .ok r) =>
      if r.accepted then (st2, tr2, .ok html)
      else (st2, tr2, .hitlRejected r.status (firstTruthy [r.error, r.hitlInfo, r.hitlStatus]))

/-- `compose/server.js` `handleComposeSend`: validate username and
instructions/regeneration base, merge configuration, validate subject and
recipients (all before any state change), then mark the instance active and
run `runFlow`.  In detached mode (`async: true`) the flow still runs but the
response is the immediate 202 acknowledgment; synchronously, a thrown flow
error becomes a 502 `compose_failed` response (with no abort transition). -/
def handleComposeSend (inp : ComposeInput) (cfg : Cfg) (st : EngineState) (env : Env)
    (now traceId : String) : ComposeResult :=
  if inp.username = "" then ⟨st, {}, .validationError "username_required"⟩
  else if inp.instructions = "" ∧ inp.base_html = "" then
    ⟨st, {}, .validationError "instructions_required"⟩
  else
    let merged := mergeConfig cfg inp.payload
    let recipients := requireRecipients merged.toRcpt merged.cc merged.bcc
    if merged.subject = none then ⟨st, {}, .validationError "subject_missing_after_merge"⟩
    else if recipients = none then ⟨st, {}, .validationError "recipients_missing_after_merge"⟩
    else
      let st1 := { st with meta := markInstanceActive st.meta inp.username now }
      match runFlow inp merged st1 ({} : Trace) env now with
      | (st2, tr, res) =>
        if inp.isAsync then ⟨st2, tr, .accepted inp.instance_id traceId⟩
        else
          match res with
          | .ok html => ⟨st2, tr, .okFlow inp.instance_id traceId html⟩
          | .hitlRejected s d => ⟨st2, tr, .okHitlRejected s d⟩
          | .threw e => ⟨st2, tr, .composeFailed e⟩

/-- Inbound `POST /compose/hitl-callback` request fields the engine consults. -/
structure CallbackInput where
  instance_id : String := "i"
  result : Option String := none
  response : Option String := none
  information : Option String := none
  instructions : Option String := none
  username : Option String := none
  isAsync : Bool := false
deriving Repr, DecidableEq

/-- `handleHitlCallback`: `action = (response || result || '').toLowerCase()`. -/
def callbackAction (inp : CallbackInput) : String :=
  toLowerCase ((firstTruthy [inp.response, inp.result]).getD "")

/-- Synchronous or detached response of `POST /compose/hitl-callback` (and of
`POST /compose/abort`, which shares the validation/ok shapes). -/
inductive CallbackResp where
  /-- 400 with a machine-readable reason code, before any state change. -/
  | validationError (code : String)
  /-- 202 `{status: 'accepted', instance_id, trace_id}` (detached-mode ack). -/
  | accepted (instance_id : String)
  /-- 200 `{ok: true}`. -/
  | ok
  /-- 400 `{error: 'hitl_callback_failed', detail}`. -/
  | failed (detail : String)
deriving Repr, DecidableEq

/-- Result of one callback/abort trigger. -/
structure CallbackResult where
  state : EngineState
  trace : Trace
  resp : CallbackResp
deriving Repr, DecidableEq

/-- The `handler` closure of `handleHitlCallback`: branch on the normalized
action.  `approve` reads the latest draft artifact and calls the send-agent
with the merged stored configuration, finishing as `finished` on success and
as `abort` (re-throwing) on failure.  `reject` finishes as `abort` with the
optional note.  `modify` increments `gen_count`, re-sets status `active`,
wraps supplied guidance as `[Key Instruction] ...`, calls the author-agent
with the latest draft as base, then resubmits to HITL with
`loopIndex = gen_count - 1` and `abortOnFail = false`; every failure in that
branch is caught and finishes the instance as `abort`.  Any other action
throws `unknown_hitl_result` without touching state. -/
def hitlCallbackFlow (inp : CallbackInput) (cfg : Cfg) (st : EngineState) (tr : Trace)
    (env : Env) (now : String) : EngineState × Trace × Except String Unit :=
  let action := callbackAction inp
  let merged := mergeConfig cfg {}
  if action = "approve" then
    let html := st.draftHtml
    let tr := { tr with deliveryCalls := tr.deliveryCalls ++
      [⟨html, merged.subject, merged.sender_email, merged.sender_name,
        merged.toRcpt, merged.cc, merged.bcc⟩] }
    match env.email with
    | .ok _ =>
      let (st2, tr2) := finishAsM st tr "finished" (some "hitl approve") now
      (st2, tr2, .ok ())
    | .error e =>
      let (st2, tr2) := finishAsM st tr "abort" (some ("email send failed: " ++ e)) now
      (st2, tr2, .error e)
  else if action = "reject" then
    let note := match truthyOpt inp.information with
      | some i => i
      | none => "hitl reject"
    let (st2, tr2) := finishAsM st tr "abort" (some note) now
    (st2, tr2, .ok ())
  else if action = "modify" then
    let rawInstr := (firstTruthy [inp.instructions, inp.information]).getD ""
    let newInstr := if jsTrim rawInstr ≠ "" then "[Key Instruction] " ++ jsTrim rawInstr else ""
    let m1 : Meta := { st.meta with gen_count := st.meta.gen_count + 1, status := some "active" }
    let nextGen := m1.gen_count
    let st := { st with meta := m1 }
    let baseHtml := st.draftHtml
    let tr := { tr with draftCalls := tr.draftCalls ++ [⟨newInstr, baseHtml, merged.subject⟩] }
    match env.author with
    | .error e =>
      let (st2, tr2) := finishAsM st tr "abort" (some ("modify failed: " ++ e)) now
      (st2, tr2, .error e)
    | .ok html =>
      let st := { st with draftHtml := html }
      match submitHitlAndHandle st tr html (nextGen - 1) env.hitl false now with
      | (st2, tr2, .error e) =>
        let (st3, tr3) := finishAsM st2 tr2 "abort" (some ("modify failed: " ++ e)) now
        (st3, tr3, .error e)
      | (st2, tr2, .ok r) =>
        if r.accepted then (st2, tr2, .ok ())
        else
          let detail := firstTruthy [r.error, r.hitlInfo, r.hitlStatus]
          let detailSuffix := match detail with
            | some d => " detail=" ++ d
            | none => ""
          let note := "HITL resubmit failed: " ++ toString r.status ++ detailSuffix
          let (st3, tr3) := abortInstanceM st2 tr2 (some note) now
          let emsg := "HITL resubmit failed " ++ toString r.status ++ detailSuffix
          let (st4, tr4) := finishAsM st3 tr3 "abort" (some ("modify failed: " ++ emsg)) now
          (st4, tr4, .error emsg)
  else (st, tr, .error "unknown_hitl_result")

/-- `compose/server.js` `handleHitlCallback`: validate the instance id, run the
handler, and answer.  In detached mode the handler still runs and the caller
gets the immediate 202 acknowledgment; synchronously a thrown handler error
becomes a 400 `hitl_callback_failed` response with the error detail. -/
def handleHitlCallback (inp : CallbackInput) (cfg : Cfg) (st : EngineState) (env : Env)
    (now : String) : CallbackResult :=
  if ¬ validateInstanceId inp.instance_id then
    ⟨st, {}, .validationError "instance_id_required"⟩
  else
    match hitlCallbackFlow inp cfg st ({} : Trace) env now with
    | (st2, tr, r) =>
      if inp.isAsync then ⟨st2, tr, .accepted inp.instance_id⟩
      else
        match r with
        | .ok _ => ⟨st2, tr, .ok⟩
        | .error e => ⟨st2, tr, .failed e⟩

/-- `compose/server.js` `handleAbort`: validate instance id and username, then
unconditionally run `abortInstance` (no terminal-state or current-status check)
and answer 200. -/
def handleAbort (instance_id username : String) (st : EngineState) (now : String) :
    CallbackResult :=
  if ¬ validateInstanceId instance_id then ⟨st, {}, .validationError "instance_id_required"⟩
  else if username = "" then ⟨st, {}, .validationError "username_required"⟩
  else
    match abortInstanceM st ({} : Trace) none now with
    | (st2, tr) => ⟨st2, tr, .ok⟩

/-- JS `String.prototype.indexOf` over characters: first index at which the
pattern occurs, `none` standing for `-1`. -/
def idxOfAux (pat : List Char) : List Char → Nat → Option Nat
  | [], i => if pat = [] then some i else none
  | c :: t, i => if pat.isPrefixOf (c :: t) then some i else idxOfAux pat t (i + 1)

/-- See `idxOfAux`. -/
def strIndexOf (s pat : String) : Option Nat := idxOfAux pat.data s.data 0

/-- JS `String.prototype.lastIndexOf` over characters: last index at which the
pattern occurs, `none` standing for `-1`. -/
def lastIdxOfAux (pat : List Char) : List Char → Nat → Option Nat → Option Nat
  | [], i, acc => if pat = [] then some i else acc
  | c :: t, i, acc =>
    lastIdxOfAux pat t (i + 1) (if pat.isPrefixOf (c :: t) then some i else acc)

/-- See `lastIdxOfAux`. -/
def strLastIndexOf (s pat : String) : Option Nat := lastIdxOfAux pat.data s.data 0 none

/-- JS `String.prototype.slice(start, stop)` over characters (non-negative indices). -/
def sliceChars (s : String) (start stop : Nat) : String :=
  ⟨(s.data.drop start).take (stop - start)⟩

/-- `author-agent/server.js` `cleanHtmlOutput` summary fallback: strip a
trailing markdown `### summary` block if present. -/
def summaryFallback (trimmed lower : String) : String :=
  match strLastIndexOf lower "### summary" with
  | some i => jsTrim (sliceChars trimmed 0 i)
  | none => trimmed

/-- `author-agent/server.js` `cleanHtmlOutput`: keep the `<html> ... </html>`
span when both markers occur in order (case-insensitively), else strip a
trailing `### summary` block, else return the trimmed input. -/
def cleanHtmlOutput (raw : String) : String :=
  if raw = "" then ""
  else
    let trimmed := jsTrim raw
    let lower := toLowerCase trimmed
    match strIndexOf lower "<html", strLastIndexOf lower "</html>" with
    | some s, some e =>
      if e > s then jsTrim (sliceChars trimmed s (e + 7))
      else summaryFallback trimmed lower
    | some _, none => summaryFallback trimmed lower
    | none, _ => summaryFallback trimmed lower

/-- `author-agent/server.js` `stubGenerateHtml`: preserve a supplied base HTML
verbatim; otherwise wrap the trimmed instructions (or a fixed placeholder) in
a minimal HTML shell. -/
def stubGenerateHtml (instructions baseHtml : String) : String :=
  let bodyText := if jsTrim instructions ≠ "" then jsTrim instructions
                  else "No additional instructions provided."
  if jsTrim baseHtml ≠ "" then baseHtml
  else
    "<html>\n<body style=\"font-family: Arial, sans-serif; padding: 16px;\">\n<p>"
      ++ bodyText ++ "</p>\n</body>\n</html>"

/-- Response of the author-agent `POST /generate` together with the artifact
file it wrote (`none` when the request was rejected before generation). -/
structure GenResult where
  status : Nat
  html : String
  artifact : Option String
deriving Repr, DecidableEq

/-- `author-agent/server.js` `handleGenerate`.  `llm` is the oracle outcome of
`generateHtmlWithLLM` (`.ok raw` = the provider's raw content, `.error` = any
thrown LLM-call error); `parsedAnswer` is the oracle outcome of
`parseLlmJson raw` (the JSON `answer` field when the raw content parses as the
contract JSON — JSON parsing itself is treated as an oracle).  On an LLM error
the handler falls back to `stubGenerateHtml`, still writes the artifact, and
still answers 200. -/
def handleGenerate (instance_id username instructions base_html : String)
    (llm : Except String String) (parsedAnswer : Option String) : GenResult :=
  if ¬ validateInstanceId instance_id then ⟨400, "", none⟩
  else if username = "" then ⟨400, "", none⟩
  else
    let html :=
      match llm with
      | .ok raw =>
        match parsedAnswer with
        | some ans => cleanHtmlOutput ans
        | none => cleanHtmlOutput raw
      | .error _ => stubGenerateHtml instructions base_html
    ⟨200, html, some html⟩

/-! ## Helper lemmas -/

/-- Unfolding of the acceptance predicate into its propositional form. -/
theorem hitlAccepted_iff (r : HitlResp) :
    hitlAccepted r = true ↔
      ((r.status = 200 ∨ r.status = 202) ∧ hitlErrorOf r = none ∧
        hitlStatusOf r ≠ some "no-hitl" ∧ hitlStatusOf r ≠ some "skip") := by
  simp [hitlAccepted, Bool.and_eq_true, Bool.or_eq_true, beq_iff_eq, bne_iff_ne,
    Option.isNone_iff_eq_none, and_assoc]

/-- `runFlow` ignores the detached-mode flag of its input. -/
theorem runFlow_isAsync_irrelevant (inp : ComposeInput) (b : Bool) (merged : Merged)
    (st : EngineState) (tr : Trace) (env : Env) (now : String) :
    runFlow { inp with isAsync := b } merged st tr env now =
      runFlow inp merged st tr env now := rfl

/-- `hitlCallbackFlow` ignores the detached-mode flag of its input. -/
theorem hitlCallbackFlow_isAsync_irrelevant (inp : CallbackInput) (b : Bool) (cfg : Cfg)
    (st : EngineState) (tr : Trace) (env : Env) (now : String) :
    hitlCallbackFlow { inp with isAsync := b } cfg st tr env now =
      hitlCallbackFlow inp cfg st tr env now := rfl

/-! ## Claims -/

/-- Claim C4: a review-collaborator response is normalized without raising
(`submitHitlAndHandle` returns `.ok` on every well-formed response, whatever
its content), and the normalized outcome counts as accepted iff the transport
status is a success code (200 or 202), no in-body error is present, and the
in-body status is neither the `no-hitl` sentinel nor `skip`; a rejecting
response is simply reported with `accepted = false`. -/
theorem C4_review_outcome_normalization (resp : HitlResp) (st : EngineState) (tr : Trace)
    (html : String) (loopIndex : Nat) (abortOnFail : Bool) (now : String) :
    (submitHitlAndHandle st tr html loopIndex (.ok resp) abortOnFail now).2.2 =
      .ok ⟨hitlAccepted resp, resp.status, hitlErrorOf resp, hitlStatusOf resp,
        hitlInfoOf resp⟩ ∧
    (hitlAccepted resp = true ↔
      ((resp.status = 200 ∨ resp.status = 202) ∧ hitlErrorOf resp = none ∧
        hitlStatusOf resp ≠ some "no-hitl" ∧ hitlStatusOf resp ≠ some "skip")) := by
  constructor
  · unfold submitHitlAndHandle
    by_cases hacc : hitlAccepted resp = true <;> by_cases hfail : abortOnFail <;>
      simp [hacc, hfail, abortInstanceM]
  · exact hitlAccepted_iff resp

/-- Claim C9: `mergeConfig` overrides configuration values with request values
field by field: a truthy request value wins for that field alone, and an
absent request field falls back to the same value an all-absent request would
get for that field (i.e. to the stored configuration for that field alone). -/
theorem C9_mergeConfig_field_independence (cfg : Cfg) (p : Payload) :
    (truthyStr p.subject = true → (mergeConfig cfg p).subject = p.subject) ∧
    (p.subject = none → (mergeConfig cfg p).subject = (mergeConfig cfg {}).subject) ∧
    (∀ l, p.toRcpt = some l → (mergeConfig cfg p).toRcpt = l) ∧
    (p.toRcpt = none → (mergeConfig cfg p).toRcpt = (mergeConfig cfg {}).toRcpt) ∧
    (∀ l, p.cc = some l → (mergeConfig cfg p).cc = l) ∧
    (p.cc = none → (mergeConfig cfg p).cc = (mergeConfig cfg {}).cc) ∧
    (∀ l, p.bcc = some l → (mergeConfig cfg p).bcc = l) ∧
    (p.bcc = none → (mergeConfig cfg p).bcc = (mergeConfig cfg {}).bcc) ∧
    (truthyStr p.sender_email = true →
      (mergeConfig cfg p).sender_email = p.sender_email) ∧
    (p.sender_email = none →
      (mergeConfig cfg p).sender_email = (mergeConfig cfg {}).sender_email) ∧
    (truthyStr p.sender_name = true →
      (mergeConfig cfg p).sender_name = p.sender_name) ∧
    (p.sender_name = none →
      (mergeConfig cfg p).sender_name = (mergeConfig cfg {}).sender_name) := by
  refine ⟨?_, ?_, ?_, ?_, ?_, ?_, ?_, ?_, ?_, ?_, ?_, ?_⟩ <;>
    intro h <;>
    simp_all [mergeConfig, firstTruthy, truthyStr, Option.or]

/-- Witness for C9 at a concrete configuration and request: the request's
subject wins, the absent recipients fall back to the stored ones. -/
theorem C9_witness :
    (mergeConfig { subject := some "Stored", toRcpt := some ["s@x.com"] }
        { subject := some "Req" }).subject = some "Req" ∧
    (mergeConfig { subject := some "Stored", toRcpt := some ["s@x.com"] }
        { subject := some "Req" }).toRcpt = ["s@x.com"] := by
  have h := C9_mergeConfig_field_independence
    { subject := some "Stored", toRcpt := some ["s@x.com"] } { subject := some "Req" }
  refine ⟨h.1 (by decide), ?_⟩
  have h2 := h.2.2.2.1 rfl
  rw [h2]
  decide

/-- Claim C10: with valid `instance_id` and `username`, a drafting request
whose LLM call throws never fails: `handleGenerate` falls back to
`stubGenerateHtml` (the supplied base HTML verbatim when its trim is
non-empty, else a minimal HTML shell wrapping the trimmed instruction text or
a fixed placeholder), writes exactly that HTML as the artifact, and answers
status 200. -/
theorem C10_generate_llm_error_stub_fallback
    (instance_id username instructions base_html e : String) (parsedAnswer : Option String)
    (hid : validateInstanceId instance_id = true) (huser : username ≠ "") :
    (handleGenerate instance_id username instructions base_html (.error e) parsedAnswer).status
        = 200 ∧
    (handleGenerate instance_id username instructions base_html (.error e) parsedAnswer).html
        = stubGenerateHtml instructions base_html ∧
    (handleGenerate instance_id username instructions base_html (.error e) parsedAnswer).artifact
        = some (stubGenerateHtml instructions base_html) ∧
    (jsTrim base_html ≠ "" → stubGenerateHtml instructions base_html = base_html) ∧
    (jsTrim base_html = "" →
      stubGenerateHtml instructions base_html =
        "<html>\n<body style=\"font-family: Arial, sans-serif; padding: 16px;\">\n<p>"
          ++ (if jsTrim instructions ≠ "" then jsTrim instructions
              else "No additional instructions provided.")
          ++ "</p>\n</body>\n</html>") := by
  refine ⟨?_, ?_, ?_, ?_, ?_⟩
  · simp [handleGenerate, hid, huser]
  · simp [handleGenerate, hid, huser]
  · simp [handleGenerate, hid, huser]
  · intro h; simp [stubGenerateHtml, h]
  · intro h; simp [stubGenerateHtml, h]

/-- Witness for C10: an LLM failure on a fresh draft (no base HTML) yields a
200 response whose HTML is the stub shell around the instruction text. -/
theorem C10_witness :
    validateInstanceId "i1" = true ∧ ("alice" : String) ≠ "" ∧
    (handleGenerate "i1" "alice" "Say hello" "" (.error "openai_error_500: x") none).status
        = 200 ∧
    (handleGenerate "i1" "alice" "Say hello" "" (.error "openai_error_500: x") none).html
        = "<html>\n<body style=\"font-family: Arial, sans-serif; padding: 16px;\">\n<p>"
            ++ "Say hello" ++ "</p>\n</body>\n</html>" := by
  have h := C10_generate_llm_error_stub_fallback "i1" "alice" "Say hello" ""
    "openai_error_500: x" none (by decide) (by decide)
  refine ⟨by decide, by decide, h.1, ?_⟩
  rw [h.2.1, h.2.2.2.2 (by decide)]
  decide

/-- Claim C5 (code bug): the engine has no terminal-state guard.  On an
instance already in `finished`, a further "approve" review callback invokes
the delivery collaborator again (one more delivery call) and re-finishes the
instance with a fresh `finished_at`, instead of no-opping or rejecting. -/
theorem C5_bug_terminal_approve_delivers_again :
    (handleHitlCallback
        { instance_id := "i1", response := some "approve" }
        { subject := some "Hi", toRcpt := some ["a@x.com"] }
        { meta := { status := some "finished", gen_count := 1, started_at := some "t0",
                    owner := some "alice", finished_at := some "t1" },
          draftHtml := "H1" }
        { author := .ok "", hitl := .ok { status := 200 }, email := .ok () }
        "t2").trace.deliveryCalls =
      [⟨"H1", some "Hi", none, none, ["a@x.com"], [], []⟩] ∧
    (handleHitlCallback
        { instance_id := "i1", response := some "approve" }
        { subject := some "Hi", toRcpt := some ["a@x.com"] }
        { meta := { status := some "finished", gen_count := 1, started_at := some "t0",
                    owner := some "alice", finished_at := some "t1" },
          draftHtml := "H1" }
        { author := .ok "", hitl := .ok { status := 200 }, email := .ok () }
        "t2").state.meta.finished_at = some "t2" ∧
    (handleHitlCallback
        { instance_id := "i1", response := some "approve" }
        { subject := some "Hi", toRcpt := some ["a@x.com"] }
        { meta := { status := some "finished", gen_count := 1, started_at := some "t0",
                    owner := some "alice", finished_at := some "t1" },
          draftHtml := "H1" }
        { author := .ok "", hitl := .ok { status := 200 }, email := .ok () }
        "t2").resp = .ok := by
  refine ⟨by decide, by decide, by decide⟩

/-- Counterexample to claim C6 as stated: a send request with no
`instructions` but a regeneration base is accepted, mutates instance state
and calls the drafting collaborator, rather than failing validation. -/
theorem C6_counterexample_regen_without_instructions :
    (handleComposeSend
        { instance_id := "i1", username := "alice", instructions := "",
          base_html := "<p>x</p>",
          payload := { subject := some "Hi", toRcpt := some ["a@x.com"] } }
        {} {} { author := .ok "H1", hitl := .ok { status := 200 }, email := .ok () }
        "t0" "tr0").resp = .okFlow "i1" "tr0" "H1" ∧
    (handleComposeSend
        { instance_id := "i1", username := "alice", instructions := "",
          base_html := "<p>x</p>",
          payload := { subject := some "Hi", toRcpt := some ["a@x.com"] } }
        {} {} { author := .ok "H1", hitl := .ok { status := 200 }, email := .ok () }
        "t0" "tr0").trace.draftCalls = [⟨"", "<p>x</p>", some "Hi"⟩] ∧
    (handleComposeSend
        { instance_id := "i1", username := "alice", instructions := "",
          base_html := "<p>x</p>",
          payload := { subject := some "Hi", toRcpt := some ["a@x.com"] } }
        {} {} { author := .ok "H1", hitl := .ok { status := 200 }, email := .ok () }
        "t0" "tr0").state.meta.status = some "wait" := by
  refine ⟨by decide, by decide, by decide⟩

/-- Claim C6 (amended): for every new send request missing a username, or
missing both instructions and a regeneration base, or whose merged
configuration lacks a subject or any non-empty recipient, the request fails
with a validation error while the instance state is untouched and no
collaborator is called. -/
theorem C6_amended_validation_no_mutation (inp : ComposeInput) (cfg : Cfg)
    (st : EngineState) (env : Env) (now traceId : String)
    (h : inp.username = "" ∨ (inp.instructions = "" ∧ inp.base_html = "") ∨
      (mergeConfig cfg inp.payload).subject = none ∨
      requireRecipients (mergeConfig cfg inp.payload).toRcpt (mergeConfig cfg inp.payload).cc
        (mergeConfig cfg inp.payload).bcc = none) :
    (handleComposeSend inp cfg st env now traceId).state = st ∧
    (handleComposeSend inp cfg st env now traceId).trace = ({} : Trace) ∧
    ∃ code, (handleComposeSend inp cfg st env now traceId).resp = .validationError code := by
  by_cases h1 : inp.username = ""
  · simp [handleComposeSend, h1]
  · by_cases h2 : inp.instructions = "" ∧ inp.base_html = ""
    · simp [handleComposeSend, h1, h2]
    · by_cases h3 : (mergeConfig cfg inp.payload).subject = none
      · simp [handleComposeSend, h1, h2, h3]
      · by_cases h4 : requireRecipients (mergeConfig cfg inp.payload).toRcpt
            (mergeConfig cfg inp.payload).cc (mergeConfig cfg inp.payload).bcc = none
        · simp [handleComposeSend, h1, h2, h3, h4]
        · exact absurd h (by simp [h1, h2, h3, h4])

/-- Witness for the amended C6: a request with a username but neither subject
nor stored configuration is rejected with no state change. -/
theorem C6_amended_witness :
    (mergeConfig ({} : Cfg) ({} : Payload)).subject = none ∧
    (handleComposeSend { instance_id := "i1", username := "alice", instructions := "Say hello" } {} {} {} "t0" "tr0").state = ({} : EngineState) ∧
    (handleComposeSend { instance_id := "i1", username := "alice", instructions := "Say hello" } {} {} {} "t0" "tr0").trace = ({} : Trace) := by
  have hcond : (mergeConfig ({} : Cfg) (({ instance_id := "i1", username := "alice", instructions := "Say hello" } : ComposeInput)).payload).subject = none := by decide
  have h := C6_amended_validation_no_mutation
    { instance_id := "i1", username := "alice", instructions := "Say hello" }
    {} {} {} "t0" "tr0" (Or.inr (Or.inr (Or.inl hcond)))
  exact ⟨by decide, h.1, h.2.1⟩

/-- Counterexample to claim C7 as stated: aborting an already-aborted
instance is not a no-op — `abortInstance` re-stamps `finished_at`
unconditionally, so the timestamp is set more than once across the lifecycle
and the second abort changes the record. -/
theorem C7_counterexample_finished_at_restamped :
    (handleAbort "i1" "alice"
        { meta := { status := some "wait", gen_count := 1, started_at := some "t0",
                    owner := some "alice" }, draftHtml := "H1" }
        "t1").state.meta.finished_at = some "t1" ∧
    (handleAbort "i1" "alice"
        (handleAbort "i1" "alice"
          { meta := { status := some "wait", gen_count := 1, started_at := some "t0",
                      owner := some "alice" }, draftHtml := "H1" }
          "t1").state
        "t2").state.meta.finished_at = some "t2" ∧
    (handleAbort "i1" "alice"
        (handleAbort "i1" "alice"
          { meta := { status := some "wait", gen_count := 1, started_at := some "t0",
                      owner := some "alice" }, draftHtml := "H1" }
          "t1").state
        "t2").state ≠
      (handleAbort "i1" "alice"
        { meta := { status := some "wait", gen_count := 1, started_at := some "t0",
                    owner := some "alice" }, draftHtml := "H1" }
        "t1").state := by
  refine ⟨by decide, by decide, by decide⟩

/-- Claim C7 (amended): an explicit abort with a valid instance id and
username always transitions the instance to `abort` and stamps `finished_at`
with the current time, overwriting any earlier value — idempotent in every
field except `finished_at`, which is refreshed on each abort. -/
theorem C7_amended_abort_restamps (instance_id username : String) (st : EngineState)
    (now now2 : String)
    (hid : validateInstanceId instance_id = true) (huser : username ≠ "") :
    (handleAbort instance_id username st now).state.meta =
      { st.meta with status := some "abort", finished_at := some now } ∧
    (handleAbort instance_id username st now).resp = .ok ∧
    (handleAbort instance_id username
        (handleAbort instance_id username st now).state now2).state.meta =
      { (handleAbort instance_id username st now).state.meta with
          finished_at := some now2 } := by
  refine ⟨?_, ?_, ?_⟩ <;> simp [handleAbort, hid, huser, abortInstanceM, abortMeta]

/-- Witness for the amended C7 at concrete inputs. -/
theorem C7_amended_witness :
    validateInstanceId "i1" = true ∧ ("alice" : String) ≠ "" ∧
    (handleAbort "i1" "alice" ({} : EngineState) "t1").state.meta =
      { status := some "abort", finished_at := some "t1" } := by
  have h := C7_amended_abort_restamps "i1" "alice" ({} : EngineState) "t1" "t2"
    (by decide) (by decide)
  exact ⟨by decide, by decide, h.1⟩

/-- Claim C2: an "approve" review callback on an instance in `wait` reads the
latest drafted HTML artifact, calls the delivery collaborator with the merged
stored configuration's subject, recipients and sender, and transitions the
instance to `finished` iff delivery succeeds — otherwise to `abort`, with the
failure detail surfaced to the synchronous caller; it never stays in `wait`
or `active`. -/
theorem C2_approve_delivery_decides_terminal_state
    (inp : CallbackInput) (cfg : Cfg) (st : EngineState) (env : Env) (now : String)
    (hid : validateInstanceId inp.instance_id = true)
    (hact : callbackAction inp = "approve")
    (hwait : st.meta.status = some "wait")
    (hsync : inp.isAsync = false) :
    (handleHitlCallback inp cfg st env now).trace.deliveryCalls =
      [⟨st.draftHtml, (mergeConfig cfg {}).subject, (mergeConfig cfg {}).sender_email,
        (mergeConfig cfg {}).sender_name, (mergeConfig cfg {}).toRcpt,
        (mergeConfig cfg {}).cc, (mergeConfig cfg {}).bcc⟩] ∧
    (env.email = .ok () →
      (handleHitlCallback inp cfg st env now).state.meta.status = some "finished" ∧
      (handleHitlCallback inp cfg st env now).state.meta.finished_at = some now ∧
      (handleHitlCallback inp cfg st env now).resp = .ok) ∧
    (∀ e, env.email = .error e →
      (handleHitlCallback inp cfg st env now).state.meta.status = some "abort" ∧
      (handleHitlCallback inp cfg st env now).state.meta.finished_at = some now ∧
      (handleHitlCallback inp cfg st env now).resp = .failed e ∧
      ("email send failed: " ++ e) ∈ (handleHitlCallback inp cfg st env now).trace.notes) ∧
    (handleHitlCallback inp cfg st env now).state.meta.status ≠ some "wait" ∧
    (handleHitlCallback inp cfg st env now).state.meta.status ≠ some "active" := by
  cases hemail : env.email with
  | ok u =>
    cases u
    simp [handleHitlCallback, hitlCallbackFlow, hid, hact, hsync, hemail,
      finishAsM, finishAsMeta]
  | error e =>
    simp [handleHitlCallback, hitlCallbackFlow, hid, hact, hsync, hemail,
      finishAsM, finishAsMeta]

/-- Witness for C2: the concrete approve scenario — draft `H1`, stored
subject `Hi` and recipient `a@x.com`, delivery succeeds, instance finishes. -/
theorem C2_witness :
    (handleHitlCallback { instance_id := "i1", response := some "approve" }
        { subject := some "Hi", toRcpt := some ["a@x.com"] }
        { meta := { status := some "wait", gen_count := 1 }, draftHtml := "H1" }
        { author := .ok "", hitl := .ok { status := 200 }, email := .ok () }
        "t2").trace.deliveryCalls =
      [⟨"H1", some "Hi", none, none, ["a@x.com"], [], []⟩] ∧
    (handleHitlCallback { instance_id := "i1", response := some "approve" }
        { subject := some "Hi", toRcpt := some ["a@x.com"] }
        { meta := { status := some "wait", gen_count := 1 }, draftHtml := "H1" }
        { author := .ok "", hitl := .ok { status := 200 }, email := .ok () }
        "t2").state.meta.status = some "finished" := by
  have h := C2_approve_delivery_decides_terminal_state
    { instance_id := "i1", response := some "approve" }
    { subject := some "Hi", toRcpt := some ["a@x.com"] }
    { meta := { status := some "wait", gen_count := 1 }, draftHtml := "H1" }
    { author := .ok "", hitl := .ok { status := 200 }, email := .ok () }
    "t2" (by decide) (by decide) rfl rfl
  exact ⟨h.1, (h.2.1 rfl).1⟩

/-- Claim C3: a "modify" review callback with non-blank free-text guidance
increments `gen_count` by exactly one, re-drafts with the guidance wrapped as
`[Key Instruction] ...` and the latest drafted HTML as the base document, and
resubmits to review with `loopIndex` = the new `gen_count` minus one; a
drafting failure ends the instance in `abort` with no review submission;
a review rejection also ends it in `abort`; an accepted resubmission leaves
it in `wait`. -/
theorem C3_modify_regeneration_cycle
    (inp : CallbackInput) (cfg : Cfg) (st : EngineState) (env : Env) (now : String)
    (hid : validateInstanceId inp.instance_id = true)
    (hact : callbackAction inp = "modify")
    (hsync : inp.isAsync = false)
    (hraw : jsTrim ((firstTruthy [inp.instructions, inp.information]).getD "") ≠ "") :
    (handleHitlCallback inp cfg st env now).state.meta.gen_count =
      st.meta.gen_count + 1 ∧
    (handleHitlCallback inp cfg st env now).trace.draftCalls =
      [⟨"[Key Instruction] " ++ jsTrim ((firstTruthy [inp.instructions, inp.information]).getD ""),
        st.draftHtml, (mergeConfig cfg {}).subject⟩] ∧
    (∀ e, env.author = .error e →
      (handleHitlCallback inp cfg st env now).state.meta.status = some "abort" ∧
      (handleHitlCallback inp cfg st env now).trace.reviewCalls = []) ∧
    (∀ html, env.author = .ok html →
      (handleHitlCallback inp cfg st env now).trace.reviewCalls =
        [⟨html, st.meta.gen_count⟩] ∧
      (∀ resp, env.hitl = .ok resp →
        (hitlAccepted resp = false →
          (handleHitlCallback inp cfg st env now).state.meta.status = some "abort") ∧
        (hitlAccepted resp = true →
          (handleHitlCallback inp cfg st env now).state.meta.status = some "wait"))) := by
  cases hauthor : env.author with
  | error e =>
    simp [handleHitlCallback, hitlCallbackFlow, hid, hact, hsync, hraw, hauthor,
      finishAsM, finishAsMeta]
  | ok html =>
    cases hhitl : env.hitl with
    | error e =>
      simp [handleHitlCallback, hitlCallbackFlow, submitHitlAndHandle, hid, hact,
        hsync, hraw, hauthor, hhitl, finishAsM, finishAsMeta]
    | ok resp =>
      by_cases hacc : hitlAccepted resp = true
      · simp [handleHitlCallback, hitlCallbackFlow, submitHitlAndHandle, hid, hact,
          hsync, hraw, hauthor, hhitl, hacc, finishAsM, finishAsMeta]
      · simp [handleHitlCallback, hitlCallbackFlow, submitHitlAndHandle, hid, hact,
          hsync, hraw, hauthor, hhitl, hacc, finishAsM, finishAsMeta,
          abortInstanceM, abortMeta]

/-- Witness for C3: the concrete modify scenario — guidance "Make it
shorter" on an instance with draft `H1` and `gen_count = 1` yields a draft
call with the wrapped instruction and base `H1` and a review submission with
`loopIndex = 1`; the accepted resubmission leaves the instance in `wait` with
`gen_count = 2`. -/
theorem C3_witness :
    (handleHitlCallback { instance_id := "i1", response := some "modify", instructions := some "Make it shorter" } {}
        { meta := { status := some "wait", gen_count := 1 }, draftHtml := "H1" }
        { author := .ok "H2", hitl := .ok { status := 200 }, email := .ok () }
        "t2").state.meta.gen_count = 2 ∧
    (handleHitlCallback { instance_id := "i1", response := some "modify", instructions := some "Make it shorter" } {}
        { meta := { status := some "wait", gen_count := 1 }, draftHtml := "H1" }
        { author := .ok "H2", hitl := .ok { status := 200 }, email := .ok () }
        "t2").trace.draftCalls = [⟨"[Key Instruction] Make it shorter", "H1", none⟩] ∧
    (handleHitlCallback { instance_id := "i1", response := some "modify", instructions := some "Make it shorter" } {}
        { meta := { status := some "wait", gen_count := 1 }, draftHtml := "H1" }
        { author := .ok "H2", hitl := .ok { status := 200 }, email := .ok () }
        "t2").trace.reviewCalls = [⟨"H2", 1⟩] ∧
    (handleHitlCallback { instance_id := "i1", response := some "modify", instructions := some "Make it shorter" } {}
        { meta := { status := some "wait", gen_count := 1 }, draftHtml := "H1" }
        { author := .ok "H2", hitl := .ok { status := 200 }, email := .ok () }
        "t2").state.meta.status = some "wait" := by
  have h := C3_modify_regeneration_cycle
    { instance_id := "i1", response := some "modify", instructions := some "Make it shorter" } {}
    { meta := { status := some "wait", gen_count := 1 }, draftHtml := "H1" }
    { author := .ok "H2", hitl := .ok { status := 200 }, email := .ok () }
    "t2" (by decide) (by decide) rfl (by decide)
  refine ⟨h.1, ?_, (h.2.2.2 "H2" rfl).1, ((h.2.2.2 "H2" rfl).2 { status := 200 } rfl).2 (by decide)⟩
  have h2 := h.2.1
  rw [h2]
  decide

/-- Counterexample to claim C1 as stated: on a valid new send request whose
drafting call fails, the engine does not transition the instance to `abort` —
it surfaces a 502 error and leaves the instance `active` (only the modify
branch aborts on a drafting failure). -/
theorem C1_counterexample_draft_failure_stays_active :
    (handleComposeSend
        { instance_id := "i1", username := "alice", instructions := "Say hello",
          payload := { subject := some "Hi", toRcpt := some ["a@x.com"] } }
        {} {} { author := .error "author_agent_error_500: boom",
                hitl := .ok { status := 200 }, email := .ok () }
        "t0" "tr0").state.meta.status = some "active" ∧
    (handleComposeSend
        { instance_id := "i1", username := "alice", instructions := "Say hello",
          payload := { subject := some "Hi", toRcpt := some ["a@x.com"] } }
        {} {} { author := .error "author_agent_error_500: boom",
                hitl := .ok { status := 200 }, email := .ok () }
        "t0" "tr0").state.meta.status ≠ some "abort" ∧
    (handleComposeSend
        { instance_id := "i1", username := "alice", instructions := "Say hello",
          payload := { subject := some "Hi", toRcpt := some ["a@x.com"] } }
        {} {} { author := .error "author_agent_error_500: boom",
                hitl := .ok { status := 200 }, email := .ok () }
        "t0" "tr0").resp = .composeFailed "author_agent_error_500: boom" := by
  refine ⟨by decide, by decide, by decide⟩

/-- Claim C1 (amended): on every valid new send request the engine marks the
instance active (stamping `started_at` and `owner` when unset), increments
`gen_count` by exactly one, calls the drafting collaborator with the caller's
instructions, and on drafting success submits to review with
`loopIndex = gen_count - 1` (0 on a first send); an accepted review leaves
the instance in `wait`, a rejected one aborts it with a note capturing the
rejection detail — but a drafting failure leaves the instance `active` and
only surfaces an error to the caller (it does not abort). -/
theorem C1_amended_new_send (inp : ComposeInput) (cfg : Cfg) (st : EngineState)
    (env : Env) (now traceId : String)
    (hasync : inp.isAsync = false)
    (huser : inp.username ≠ "")
    (hinstr : ¬(inp.instructions = "" ∧ inp.base_html = ""))
    (hsubj : (mergeConfig cfg inp.payload).subject ≠ none)
    (hrcpt : requireRecipients (mergeConfig cfg inp.payload).toRcpt
      (mergeConfig cfg inp.payload).cc (mergeConfig cfg inp.payload).bcc ≠ none) :
    (handleComposeSend inp cfg st env now traceId).state.meta.gen_count =
      st.meta.gen_count + 1 ∧
    (truthyStr st.meta.started_at = false →
      (handleComposeSend inp cfg st env now traceId).state.meta.started_at = some now) ∧
    (truthyStr st.meta.owner = false →
      (handleComposeSend inp cfg st env now traceId).state.meta.owner =
        some inp.username) ∧
    (handleComposeSend inp cfg st env now traceId).trace.draftCalls =
      [⟨inp.instructions, inp.base_html, (mergeConfig cfg inp.payload).subject⟩] ∧
    (∀ e, env.author = .error e →
      (handleComposeSend inp cfg st env now traceId).state.meta.status = some "active" ∧
      (handleComposeSend inp cfg st env now traceId).trace.reviewCalls = [] ∧
      (handleComposeSend inp cfg st env now traceId).resp = .composeFailed e) ∧
    (∀ html, env.author = .ok html →
      (handleComposeSend inp cfg st env now traceId).trace.reviewCalls =
        [⟨html, st.meta.gen_count⟩] ∧
      (∀ resp, env.hitl = .ok resp →
        (hitlAccepted resp = true →
          (handleComposeSend inp cfg st env now traceId).state.meta.status = some "wait" ∧
          (handleComposeSend inp cfg st env now traceId).resp =
            .okFlow inp.instance_id traceId html) ∧
        (hitlAccepted resp = false →
          (handleComposeSend inp cfg st env now traceId).state.meta.status = some "abort" ∧
          (handleComposeSend inp cfg st env now traceId).trace.notes =
            [failNote resp.status (hitlErrorOf resp) (hitlStatusOf resp)
              (hitlInfoOf resp)]))) := by
  obtain ⟨author, hitl, email⟩ := env
  by_cases hst : truthyStr st.meta.started_at = true <;>
    by_cases how : truthyStr st.meta.owner = true <;>
    (cases author with
     | error e =>
       simp [handleComposeSend, runFlow, submitHitlAndHandle, huser, hinstr, hsubj,
         hrcpt, hasync, markInstanceActive, hst, how, abortInstanceM, abortMeta]
     | ok html =>
       cases hitl with
       | error e2 =>
         simp [handleComposeSend, runFlow, submitHitlAndHandle, huser, hinstr, hsubj,
           hrcpt, hasync, markInstanceActive, hst, how, abortInstanceM, abortMeta]
       | ok resp =>
         by_cases hacc : hitlAccepted resp = true <;>
           simp [handleComposeSend, runFlow, submitHitlAndHandle, huser, hinstr, hsubj,
             hrcpt, hasync, markInstanceActive, hst, how, hacc, abortInstanceM,
             abortMeta])

/-- Witness for the amended C1: the concrete first-send scenario — username
`alice`, instructions `Say hello`, subject `Hi`, recipient `a@x.com`, an
accepted review — yields one draft call, one review submission with
`loopIndex = 0`, final status `wait` and `gen_count = 1`. -/
theorem C1_amended_witness :
    (handleComposeSend { instance_id := "i1", username := "alice", instructions := "Say hello", payload := { subject := some "Hi", toRcpt := some ["a@x.com"] } } {} {} { author := .ok "H1", hitl := .ok { status := 200 }, email := .ok () } "t0" "tr0").state.meta.gen_count = 1 ∧
    (handleComposeSend { instance_id := "i1", username := "alice", instructions := "Say hello", payload := { subject := some "Hi", toRcpt := some ["a@x.com"] } } {} {} { author := .ok "H1", hitl := .ok { status := 200 }, email := .ok () } "t0" "tr0").trace.reviewCalls = [⟨"H1", 0⟩] ∧
    (handleComposeSend { instance_id := "i1", username := "alice", instructions := "Say hello", payload := { subject := some "Hi", toRcpt := some ["a@x.com"] } } {} {} { author := .ok "H1", hitl := .ok { status := 200 }, email := .ok () } "t0" "tr0").state.meta.status = some "wait" := by
  have h := C1_amended_new_send
    { instance_id := "i1", username := "alice", instructions := "Say hello",
      payload := { subject := some "Hi", toRcpt := some ["a@x.com"] } }
    {} {} { author := .ok "H1", hitl := .ok { status := 200 }, email := .ok () }
    "t0" "tr0" rfl (by decide) (by decide) (by decide) (by decide)
  exact ⟨h.1, (h.2.2.2.2.2 "H1" rfl).1,
    (((h.2.2.2.2.2 "H1" rfl).2 { status := 200 } rfl).1 (by decide)).1⟩

/-- Claim C8: for both trigger kinds, running the same input in detached mode
and in synchronous mode yields the same final instance state and the same
collaborator calls; detachment only changes the response, which in detached
mode is the immediate acknowledgment carrying the instance id (and trace id)
whenever the request passes validation. -/
theorem C8_detached_mode_state_equivalence (inp : ComposeInput) (cinp : CallbackInput)
    (cfg ccfg : Cfg) (st cst : EngineState) (env cenv : Env) (now cnow traceId : String) :
    ((handleComposeSend { inp with isAsync := true } cfg st env now traceId).state =
      (handleComposeSend { inp with isAsync := false } cfg st env now traceId).state) ∧
    ((handleComposeSend { inp with isAsync := true } cfg st env now traceId).trace =
      (handleComposeSend { inp with isAsync := false } cfg st env now traceId).trace) ∧
    ((handleHitlCallback { cinp with isAsync := true } ccfg cst cenv cnow).state =
      (handleHitlCallback { cinp with isAsync := false } ccfg cst cenv cnow).state) ∧
    ((handleHitlCallback { cinp with isAsync := true } ccfg cst cenv cnow).trace =
      (handleHitlCallback { cinp with isAsync := false } ccfg cst cenv cnow).trace) ∧
    ((handleComposeSend { inp with isAsync := true } cfg st env now traceId).resp =
        .accepted inp.instance_id traceId ∨
      ∃ code, (handleComposeSend { inp with isAsync := true } cfg st env now traceId).resp =
        .validationError code) ∧
    ((handleHitlCallback { cinp with isAsync := true } ccfg cst cenv cnow).resp =
        .accepted cinp.instance_id ∨
      (handleHitlCallback { cinp with isAsync := true } ccfg cst cenv cnow).resp =
        .validationError "instance_id_required") := by
  have hflow := runFlow_isAsync_irrelevant inp
  have hcb := hitlCallbackFlow_isAsync_irrelevant cinp
  refine ⟨?_, ?_, ?_, ?_, ?_, ?_⟩
  · simp only [handleComposeSend, hflow]
    by_cases h1 : inp.username = "" <;>
      by_cases h2 : inp.instructions = "" ∧ inp.base_html = "" <;>
      simp [h1, h2] <;> (repeat' split) <;> simp
  · simp only [handleComposeSend, hflow]
    by_cases h1 : inp.username = "" <;>
      by_cases h2 : inp.instructions = "" ∧ inp.base_html = "" <;>
      simp [h1, h2] <;> (repeat' split) <;> simp
  · simp only [handleHitlCallback, hcb]
    by_cases h1 : validateInstanceId cinp.instance_id <;> simp [h1] <;> (repeat' split) <;> simp
  · simp only [handleHitlCallback, hcb]
    by_cases h1 : validateInstanceId cinp.instance_id <;> simp [h1] <;> (repeat' split) <;> simp
  · simp only [handleComposeSend, hflow]
    by_cases h1 : inp.username = "" <;>
      by_cases h2 : inp.instructions = "" ∧ inp.base_html = "" <;>
      simp [h1, h2] <;> (repeat' split) <;> simp
  · simp only [handleHitlCallback, hcb]
    by_cases h1 : validateInstanceId cinp.instance_id <;> simp [h1] <;> (repeat' split) <;> simp

end EmailApp
